import Mathlib

/-!
Shallow embedding of the OCR aggregation pipeline of the comic-reader
repository (`src/ocr/run_ocr.py`).  Pure geometry and aggregation code is
translated directly; the external PaddleOCR capability is modelled by an
explicit outcome value per crop (raise, or a list of result pages), and the
run loop of `process_image` is state passing over the filtered detection
list, with Python KeyError aborts embedded as `Except.error`.
-/

set_option autoImplicit false

namespace ComicReader

/-- Axis-aligned bounding box as stored in the detection JSON: four
fractional, possibly out-of-bounds coordinates (`bbox` dict with keys
x1, y1, x2, y2). -/
structure Bbox where
  x1 : ℚ
  y1 : ℚ
  x2 : ℚ
  y2 : ℚ
  deriving DecidableEq

/-- Python `int(.)` applied to a numeric value truncates toward zero. -/
def pyInt (q : ℚ) : ℤ := if 0 ≤ q then ⌊q⌋ else ⌈q⌉

/-- Python `round(x * 10^4)` core: round half to even (the rounding used by
Python `round`), modelled on exact rationals. -/
def roundHalfEven (q : ℚ) : ℤ :=
  if q - ⌊q⌋ < 1/2 then ⌊q⌋
  else if 1/2 < q - ⌊q⌋ then ⌊q⌋ + 1
  else if ⌊q⌋ % 2 = 0 then ⌊q⌋ else ⌊q⌋ + 1

/-- Python `round(q, 4)`: round to four decimal places, ties to even. -/
def round4 (q : ℚ) : ℚ := (roundHalfEven (q * 10000) : ℚ) / 10000

/-- One recognized text line as stored by `run_ocr_on_crop`: the dict
`{text, confidence}` where confidence is the raw score rounded to four
decimal places. -/
structure OcrLine where
  text : String
  confidence : ℚ
  deriving DecidableEq

/-- The per-region OCR record built by `run_ocr_on_crop` and by the
invalid-crop branch of `process_image`: keys `text_lines`, `full_text`,
`avg_confidence` and the optional key `error` (absent = `none`). -/
structure RegionOcrResult where
  text_lines : List OcrLine
  full_text : String
  avg_confidence : ℚ
  error : Option String
  deriving DecidableEq

/-- One detection record of the bubble-detection JSON.  A key may be absent
(`none`); Python raises KeyError when such a record is subscripted with the
missing key.  A present bbox is modelled as a well-formed four-coordinate
box, matching the persisted document format. -/
structure DetRecord where
  label : Option String
  label_id : Option ℤ
  confidence : Option ℚ
  bbox : Option Bbox
  deriving DecidableEq

/-- The loaded bubble-detection JSON document.  `detections = none` models a
document without a "detections" key; `bubble_data.get("detections", [])`
then yields the empty list. -/
structure BubbleData where
  detections : Option (List DetRecord)
  deriving DecidableEq

/-- Embedding of `filter_text_regions` (run_ocr.py lines 17 to 27): keep the
detections whose label_id is 1 or 2, in their original order.  A record
without a label_id key (`det.get("label_id")` yields None) is dropped. -/
def filter_text_regions (bubble_data : BubbleData) : List DetRecord :=
  (bubble_data.detections.getD []).filter
    (fun det => det.label_id == some 1 || det.label_id == some 2)

/-- The coordinate clamp of `crop_region` (lines 43 to 48):
`max(0, int(x1))`, `max(0, int(y1))`, `min(width, int(x2))`,
`min(height, int(y2))`, with Python int() truncation toward zero. -/
def clampCoords (width height : ℕ) (bbox : Bbox) : ℤ × ℤ × ℤ × ℤ :=
  (max 0 (pyInt bbox.x1), max 0 (pyInt bbox.y1),
    min (width : ℤ) (pyInt bbox.x2), min (height : ℤ) (pyInt bbox.y2))

/-- Embedding of `crop_region` (lines 30 to 58): the clamped integer crop
rectangle, or `none` (Python None) when the clamped box is degenerate or
under 20 px in either dimension.  The pixel content of a crop is irrelevant
to every property proved here, so the rectangle stands for the cropped
image. -/
def crop_region (width height : ℕ) (bbox : Bbox) : Option (ℤ × ℤ × ℤ × ℤ) :=
  match clampCoords width height bbox with
  | (x1, y1, x2, y2) =>
    if x2 ≤ x1 ∨ y2 ≤ y1 then none
    else if x2 - x1 < 20 ∨ y2 - y1 < 20 then none
    else some (x1, y1, x2, y2)

/-- One element of the raw `ocr.predict` output, viewed as a Python dict:
`nonempty` is its truthiness (an empty dict is falsy), and `rec_texts`,
`rec_scores` are the values of `.get("rec_texts", [])` and
`.get("rec_scores", [])`.  Representation invariant (never needed by a
proof, since a falsy page is not subscripted by the code): a falsy page has
empty lists. -/
structure OcrPage where
  nonempty : Bool
  rec_texts : List String
  rec_scores : List ℚ
  deriving DecidableEq

/-- One behaviour of the external `ocr.predict` call on one crop: either it
raises an exception with a message, or it returns a list of result pages. -/
inductive OcrOutcome where
  | raises (msg : String)
  | returns (result : List OcrPage)
  deriving DecidableEq

/-- Embedding of `run_ocr_on_crop` (lines 61 to 117), parameterized by the
outcome of the underlying `ocr.predict` call on this crop.  The guard
`not result or not result[0]` is the empty-list match plus the falsy-page
test; the zip, the per-line rounding, the running total of unrounded
scores, and the final `round(avg, 4)` mirror lines 84 to 109. -/
def run_ocr_on_crop (outcome : OcrOutcome) : RegionOcrResult :=
  match outcome with
  | .raises msg => ⟨[], "", 0, some ("OCR failed: " ++ msg)⟩
  | .returns result =>
    match result with
    | [] => ⟨[], "", 0, some "No text detected"⟩
    | page :: _ =>
      if page.nonempty = false then ⟨[], "", 0, some "No text detected"⟩
      else
        let zipped := page.rec_texts.zip page.rec_scores
        let text_lines := zipped.map (fun ts => OcrLine.mk ts.1 (round4 ts.2))
        let total_confidence := (zipped.map (fun ts => ts.2)).sum
        let avg_confidence : ℚ :=
          if text_lines ≠ [] then total_confidence / (text_lines.length : ℚ) else 0
        let full_text := String.intercalate "\n" (text_lines.map (fun l => l.text))
        ⟨text_lines, full_text, round4 avg_confidence, none⟩

/-- One output entry of `process_image` (the `result_entry` dict of lines
185 to 191): the input detection fields copied verbatim plus the OCR
record. -/
structure AnnotatedDetection where
  label : String
  label_id : ℤ
  confidence : ℚ
  bbox : Bbox
  ocr_result : RegionOcrResult
  deriving DecidableEq

/-- The `image_info` block of the output document. -/
structure ImageInfo where
  path : String
  width : ℕ
  height : ℕ
  deriving DecidableEq

/-- The `ocr_config` block of the output document. -/
structure OcrConfig where
  lang : String
  model : String
  version : String
  confidence_threshold : ℚ
  deriving DecidableEq

/-- The output document assembled by `process_image` (lines 195 to 210). -/
structure PipelineOutput where
  image_info : ImageInfo
  detections : List AnnotatedDetection
  ocr_config : OcrConfig
  source_bubble_file : String
  processed_at : String
  deriving DecidableEq

/-- The OCR record computed for one detection with bbox `bbox` (lines 164
to 175): on an invalid crop the synthesized error record, otherwise
`run_ocr_on_crop` on the recognizer outcome for that crop. -/
def detection_ocr_result (recognizer : ℤ × ℤ × ℤ × ℤ → OcrOutcome)
    (width height : ℕ) (bbox : Bbox) : RegionOcrResult :=
  match crop_region width height bbox with
  | none => ⟨[], "", 0, some "Invalid crop region"⟩
  | some rect => run_ocr_on_crop (recognizer rect)

/-- One iteration of the `process_image` loop body (lines 160 to 192) for
one detection record: subscript accesses of missing keys become
`Except.error` (Python KeyError propagating out of `process_image`). -/
def processDetection (recognizer : ℤ × ℤ × ℤ × ℤ → OcrOutcome)
    (width height : ℕ) (detection : DetRecord) :
    Except String AnnotatedDetection :=
  match detection.bbox with
  | none => .error "KeyError: bbox"
  | some bbox =>
    let ocr_result := detection_ocr_result recognizer width height bbox
    match detection.label, detection.label_id, detection.confidence with
    | some label, some label_id, some confidence =>
      .ok ⟨label, label_id, confidence, bbox, ocr_result⟩
    | _, _, _ => .error "KeyError: detection field"

/-- The `process_image` loop (lines 159 to 192) over the filtered detection
list, accumulating the `results` list in order. -/
def processRegions (recognizer : ℤ × ℤ × ℤ × ℤ → OcrOutcome)
    (width height : ℕ) :
    List DetRecord → Except String (List AnnotatedDetection)
  | [] => .ok []
  | det :: rest =>
    match processDetection recognizer width height det with
    | .error e => .error e
    | .ok entry =>
      match processRegions recognizer width height rest with
      | .error e => .error e
      | .ok others => .ok (entry :: others)

/-- Embedding of `process_image` (lines 120 to 212).  The image is
represented by its path and dimensions; the recognizer behaviour per crop
rectangle is a parameter (the PaddleOCR instance is external); the
timestamp string is a parameter.  An uncaught Python exception inside the
loop is `Except.error`. -/
def process_image (recognizer : ℤ × ℤ × ℤ × ℤ → OcrOutcome)
    (image_path : String) (width height : ℕ) (bubble_data : BubbleData)
    (lang : String) (confidence_threshold : ℚ)
    (bubble_json_path : String) (processed_at : String) :
    Except String PipelineOutput :=
  match processRegions recognizer width height (filter_text_regions bubble_data) with
  | .error e => .error e
  | .ok results =>
    .ok ⟨⟨image_path, width, height⟩, results,
      ⟨lang, "paddleocr", "3.3.2", confidence_threshold⟩,
      bubble_json_path, processed_at⟩

/-- The clamp exactly as the specification words it (section 4.1):
floor on the lower coordinates, ceiling on the upper ones.  Stated for
comparison with `clampCoords`, which embeds the source. -/
def spec_clamp (width height : ℕ) (bbox : Bbox) : ℤ × ℤ × ℤ × ℤ :=
  (max 0 ⌊bbox.x1⌋, max 0 ⌊bbox.y1⌋,
    min (width : ℤ) ⌈bbox.x2⌉, min (height : ℤ) ⌈bbox.y2⌉)

/-- A detection record on which the `process_image` loop body raises no
KeyError: all four subscripted keys are present. -/
def wellFormed (d : DetRecord) : Prop :=
  d.label.isSome ∧ d.label_id.isSome ∧ d.confidence.isSome ∧ d.bbox.isSome

instance (d : DetRecord) : Decidable (wellFormed d) := by
  unfold wellFormed; infer_instance

lemma pyInt_of_nonneg {q : ℚ} (h : 0 ≤ q) : pyInt q = ⌊q⌋ := if_pos h

lemma max_zero_pyInt (q : ℚ) : max 0 (pyInt q) = max 0 ⌊q⌋ := by
  unfold pyInt
  split_ifs with h
  · rfl
  · push_neg at h
    have hc : ⌈q⌉ ≤ 0 := Int.ceil_le.mpr (by exact_mod_cast h.le)
    have hf : ⌊q⌋ ≤ 0 := Int.floor_nonpos h.le
    rw [max_eq_left hc, max_eq_left hf]

lemma round4_of_exact (q : ℚ) (n : ℤ) (h : q * 10000 = (n : ℚ)) :
    round4 q = (n : ℚ) / 10000 := by
  have hf : ⌊q * 10000⌋ = n := by rw [h, Int.floor_intCast]
  unfold round4 roundHalfEven
  rw [hf, h, if_pos (by norm_num)]

lemma round4_zero : round4 0 = 0 := by
  have h := round4_of_exact 0 0 (by norm_num)
  simpa using h

/-- The invariant of every record returned by `run_ocr_on_crop`: an error
implies empty lines and zero confidence, and empty lines without an error
also force zero confidence. -/
lemma run_ocr_invariant (outcome : OcrOutcome) :
    ((run_ocr_on_crop outcome).error ≠ none →
      (run_ocr_on_crop outcome).text_lines = []
        ∧ (run_ocr_on_crop outcome).avg_confidence = 0)
    ∧ ((run_ocr_on_crop outcome).error = none →
        (run_ocr_on_crop outcome).text_lines = [] →
        (run_ocr_on_crop outcome).avg_confidence = 0) := by
  cases outcome with
  | raises msg => simp [run_ocr_on_crop]
  | returns result =>
    cases result with
    | nil => simp [run_ocr_on_crop]
    | cons page rest =>
      by_cases hp : page.nonempty = false
      · simp [run_ocr_on_crop, hp]
      · constructor
        · intro he
          exact absurd (by simp [run_ocr_on_crop, hp]) he
        · intro _ htl
          have hz : page.rec_texts.zip page.rec_scores = [] := by
            have h2 := htl
            simp only [run_ocr_on_crop, if_neg hp] at h2
            exact List.map_eq_nil_iff.mp h2
          simp [run_ocr_on_crop, hp, hz, round4_zero]

lemma processDetection_ok_of_wf (recognizer : ℤ × ℤ × ℤ × ℤ → OcrOutcome)
    (width height : ℕ) (det : DetRecord) {lab : String} {lid : ℤ} {conf : ℚ}
    {b : Bbox} (hlab : det.label = some lab) (hlid : det.label_id = some lid)
    (hconf : det.confidence = some conf) (hb : det.bbox = some b) :
    processDetection recognizer width height det =
      .ok ⟨lab, lid, conf, b, detection_ocr_result recognizer width height b⟩ := by
  rcases det with ⟨l, i, c, bb⟩
  simp only at hlab hlid hconf hb
  subst hlab hlid hconf hb
  rfl

lemma processDetection_ok_elim {recognizer : ℤ × ℤ × ℤ × ℤ → OcrOutcome}
    {width height : ℕ} {det : DetRecord} {a : AnnotatedDetection}
    (h : processDetection recognizer width height det = .ok a) :
    det.label = some a.label ∧ det.label_id = some a.label_id ∧
      det.confidence = some a.confidence ∧ det.bbox = some a.bbox ∧
      a.ocr_result = detection_ocr_result recognizer width height a.bbox := by
  rcases det with ⟨l, i, c, bb⟩
  cases bb with
  | none => simp [processDetection] at h
  | some b =>
    cases l <;> cases i <;> cases c <;> simp [processDetection] at h
    subst h
    simp

/-- The relation between an input detection record and the output entry the
loop produces for it: fields copied verbatim, OCR record computed from the
bbox alone. -/
def entryRel (recognizer : ℤ × ℤ × ℤ × ℤ → OcrOutcome) (width height : ℕ)
    (d : DetRecord) (a : AnnotatedDetection) : Prop :=
  d.label = some a.label ∧ d.label_id = some a.label_id ∧
    d.confidence = some a.confidence ∧ d.bbox = some a.bbox ∧
    a.ocr_result = detection_ocr_result recognizer width height a.bbox

lemma processRegions_ok_of_wf (recognizer : ℤ × ℤ × ℤ × ℤ → OcrOutcome)
    (width height : ℕ) (l : List DetRecord) (h : ∀ d ∈ l, wellFormed d) :
    ∃ out, processRegions recognizer width height l = .ok out ∧
      List.Forall₂ (entryRel recognizer width height) l out := by
  induction l with
  | nil => exact ⟨[], rfl, .nil⟩
  | cons d ds ih =>
    obtain ⟨out, hout, hrel⟩ := ih (fun x hx => h x (List.mem_cons_of_mem _ hx))
    obtain ⟨hl, hlid, hc, hb⟩ := h d (List.mem_cons_self d ds)
    obtain ⟨lab, hlab⟩ := Option.isSome_iff_exists.mp hl
    obtain ⟨lid, hlid2⟩ := Option.isSome_iff_exists.mp hlid
    obtain ⟨conf, hconf⟩ := Option.isSome_iff_exists.mp hc
    obtain ⟨b, hbb⟩ := Option.isSome_iff_exists.mp hb
    refine ⟨⟨lab, lid, conf, b,
      detection_ocr_result recognizer width height b⟩ :: out, ?_, ?_⟩
    · simp [processRegions,
        processDetection_ok_of_wf recognizer width height d hlab hlid2 hconf hbb,
        hout]
    · exact .cons ⟨hlab, hlid2, hconf, hbb, rfl⟩ hrel

lemma processRegions_ok_forall₂ {recognizer : ℤ × ℤ × ℤ × ℤ → OcrOutcome}
    {width height : ℕ} (l : List DetRecord) (out : List AnnotatedDetection)
    (h : processRegions recognizer width height l = .ok out) :
    List.Forall₂ (entryRel recognizer width height) l out := by
  induction l generalizing out with
  | nil =>
    simp [processRegions] at h
    subst h
    exact .nil
  | cons d ds ih =>
    cases hd : processDetection recognizer width height d with
    | error e => simp [processRegions, hd] at h
    | ok a =>
      cases hr : processRegions recognizer width height ds with
      | error e => simp [processRegions, hd, hr] at h
      | ok rest =>
        simp [processRegions, hd, hr] at h
        subst h
        exact .cons (processDetection_ok_elim hd) (ih rest hr)

lemma processRegions_congr (rec1 rec2 : ℤ × ℤ × ℤ × ℤ → OcrOutcome)
    (width height : ℕ) (l : List DetRecord)
    (hagree : ∀ d ∈ l, ∀ b, d.bbox = some b →
      ∀ r, crop_region width height b = some r → rec1 r = rec2 r) :
    processRegions rec1 width height l = processRegions rec2 width height l := by
  induction l with
  | nil => rfl
  | cons d ds ih =>
    have hd : processDetection rec1 width height d
        = processDetection rec2 width height d := by
      rcases d with ⟨lab, lid, conf, bb⟩
      cases bb with
      | none => rfl
      | some b =>
        have hres : detection_ocr_result rec1 width height b
            = detection_ocr_result rec2 width height b := by
          unfold detection_ocr_result
          cases hcr : crop_region width height b with
          | none => rfl
          | some r =>
            show run_ocr_on_crop (rec1 r) = run_ocr_on_crop (rec2 r)
            rw [hagree _ (List.mem_cons_self _ _) b rfl r hcr]
        cases lab <;> cases lid <;> cases conf <;> simp [processDetection, hres]
    simp only [processRegions, hd,
      ih (fun x hx => hagree x (List.mem_cons_of_mem _ hx))]

lemma processRegions_not_ok_of_bad (recognizer : ℤ × ℤ × ℤ × ℤ → OcrOutcome)
    (width height : ℕ) (l : List DetRecord)
    (hbad : ∃ d ∈ l, d.bbox = none ∨ d.label = none ∨ d.confidence = none) :
    ∀ out, processRegions recognizer width height l ≠ .ok out := by
  induction l with
  | nil => simp at hbad
  | cons d ds ih =>
    intro out h
    rcases hbad with ⟨x, hx, hxbad⟩
    rcases List.mem_cons.mp hx with rfl | hxds
    · cases hd : processDetection recognizer width height x with
      | error e => simp [processRegions, hd] at h
      | ok a =>
        obtain ⟨h1, _, h3, h4, _⟩ := processDetection_ok_elim hd
        rcases hxbad with hb | hb | hb
        · rw [hb] at h4; exact Option.noConfusion h4
        · rw [hb] at h1; exact Option.noConfusion h1
        · rw [hb] at h3; exact Option.noConfusion h3
    · cases hd : processDetection recognizer width height d with
      | error e => simp [processRegions, hd] at h
      | ok a =>
        cases hr : processRegions recognizer width height ds with
        | error e => simp [processRegions, hd, hr] at h
        | ok rest => exact ih ⟨x, hxds, hxbad⟩ rest hr

lemma forall₂_map_eq {α β γ : Type} {r : α → β → Prop} {g : β → γ} {k : α → γ}
    {l : List α} {out : List β} (h : List.Forall₂ r l out)
    (hk : ∀ d a, r d a → g a = k d) : out.map g = l.map k := by
  induction h with
  | nil => rfl
  | cons hr _ ih => simp [List.map_cons, hk _ _ hr, ih]

lemma forall₂_mem_right {α β : Type} {r : α → β → Prop} {l : List α}
    {out : List β} (h : List.Forall₂ r l out) {a : β} (ha : a ∈ out) :
    ∃ d ∈ l, r d a := by
  induction h with
  | nil => simp at ha
  | cons hr hrest ih =>
    rcases List.mem_cons.mp ha with rfl | ha2
    · exact ⟨_, List.mem_cons_self _ _, hr⟩
    · obtain ⟨d, hd, hrd⟩ := ih ha2
      exact ⟨d, List.mem_cons_of_mem _ hd, hrd⟩

lemma process_image_ok_elim {recognizer : ℤ × ℤ × ℤ × ℤ → OcrOutcome}
    {image_path : String} {width height : ℕ} {bubble_data : BubbleData}
    {lang : String} {confidence_threshold : ℚ} {src now : String}
    {o : PipelineOutput}
    (h : process_image recognizer image_path width height bubble_data lang
      confidence_threshold src now = .ok o) :
    processRegions recognizer width height (filter_text_regions bubble_data)
      = .ok o.detections := by
  unfold process_image at h
  cases hr : processRegions recognizer width height
      (filter_text_regions bubble_data) with
  | error e => rw [hr] at h; exact Except.noConfusion h
  | ok results =>
    rw [hr] at h
    injection h with h2
    rw [← h2]

/-- C1: For every detection document (with well-formed text-filtered
records, so that the loop body itself raises no KeyError) and every
behaviour of the TextRecognizer on each crop (success, empty output, or
raised exception), `process_image` completes with exactly one output entry
per text-label-filtered input detection, each entry carrying the OCR record
computed from its own bbox alone, and a raised exception is converted into
an error-bearing record rather than aborting the run or removing any
record. -/
theorem pipeline_preserves_every_filtered_detection
    (recognizer : ℤ × ℤ × ℤ × ℤ → OcrOutcome) (image_path : String)
    (width height : ℕ) (bubble_data : BubbleData) (lang : String)
    (threshold : ℚ) (src now msg : String)
    (hwf : ∀ d ∈ filter_text_regions bubble_data, wellFormed d) :
    (process_image recognizer image_path width height bubble_data lang
        threshold src now).map (fun o => o.detections.length)
      = .ok (filter_text_regions bubble_data).length
    ∧ (process_image recognizer image_path width height bubble_data lang
        threshold src now).map
          (fun o => o.detections.map (fun a => (some a.bbox, some a.ocr_result)))
      = .ok ((filter_text_regions bubble_data).map
          (fun d => (d.bbox, d.bbox.map
            (fun b => detection_ocr_result recognizer width height b))))
    ∧ (run_ocr_on_crop (.raises msg)).error = some ("OCR failed: " ++ msg) := by
  obtain ⟨out, hout, hrel⟩ :=
    processRegions_ok_of_wf recognizer width height _ hwf
  have hproc : process_image recognizer image_path width height bubble_data
      lang threshold src now
      = .ok ⟨⟨image_path, width, height⟩, out,
          ⟨lang, "paddleocr", "3.3.2", threshold⟩, src, now⟩ := by
    unfold process_image
    rw [hout]
  refine ⟨?_, ?_, rfl⟩
  · rw [hproc]
    simp only [Except.map]
    exact congrArg Except.ok hrel.length_eq.symm
  · rw [hproc]
    simp only [Except.map]
    refine congrArg Except.ok ?_
    refine forall₂_map_eq hrel (fun d a hr => ?_)
    obtain ⟨_, _, _, hb, ho⟩ := hr
    simp [hb, ho]

/-- Concrete application of C1: a document with two text regions and one
bubble region, with a recognizer that raises on every crop, still yields
one output entry per filtered region. -/
theorem pipeline_preserves_every_filtered_detection_app :
    (process_image (fun _ => .raises "boom") "page.png" 100 100
        ⟨some [⟨some "text_bubble", some 1, some 1, some ⟨0, 0, 30, 30⟩⟩,
          ⟨some "bubble", some 0, some 1, some ⟨0, 0, 200, 200⟩⟩,
          ⟨some "text_free", some 2, some 1, some ⟨5, 5, 60, 40⟩⟩]⟩
        "chinese_cht" 1 "b.json" "t").map (fun o => o.detections.length)
      = .ok (filter_text_regions
          ⟨some [⟨some "text_bubble", some 1, some 1, some ⟨0, 0, 30, 30⟩⟩,
            ⟨some "bubble", some 0, some 1, some ⟨0, 0, 200, 200⟩⟩,
            ⟨some "text_free", some 2, some 1, some ⟨5, 5, 60, 40⟩⟩]⟩).length :=
  (pipeline_preserves_every_filtered_detection (fun _ => .raises "boom")
    "page.png" 100 100
    ⟨some [⟨some "text_bubble", some 1, some 1, some ⟨0, 0, 30, 30⟩⟩,
      ⟨some "bubble", some 0, some 1, some ⟨0, 0, 200, 200⟩⟩,
      ⟨some "text_free", some 2, some 1, some ⟨5, 5, 60, 40⟩⟩]⟩
    "chinese_cht" 1 "b.json" "t" "boom" (by decide)).1

/-- C2 counterexample: the code clamps the upper coordinates with Python
int() truncation, not with the ceiling the claim states.  At
bbox = (0, 0, 30.5, 25) on a 100 by 100 image the code produces x2 = 30
while the claimed formula produces ceil(30.5) = 31. -/
theorem clamp_uses_truncation_not_ceiling :
    clampCoords 100 100 ⟨0, 0, 61/2, 25⟩ ≠ spec_clamp 100 100 ⟨0, 0, 61/2, 25⟩ := by
  have hfx : ⌊(61/2 : ℚ)⌋ = 30 := by
    rw [Int.floor_eq_iff]; norm_num
  have hcx : ⌈(61/2 : ℚ)⌉ = 31 := by
    rw [Int.ceil_eq_iff]; norm_num
  have hpy : pyInt (61/2 : ℚ) = 30 := by
    rw [pyInt_of_nonneg (by norm_num), hfx]
  simp only [clampCoords, spec_clamp, hpy, hcx]
  decide

/-- C2 amended: the lower clamped coordinates are max(0, floor(.)) exactly
as claimed (truncation and floor agree there after the max with 0), but the
upper ones are min with the floor, not the ceiling, whenever x2 and y2 are
nonnegative: Python int() truncates toward zero and never rounds up. -/
theorem clampCoords_eq_floor_formula (width height : ℕ) (b : Bbox)
    (hx2 : 0 ≤ b.x2) (hy2 : 0 ≤ b.y2) :
    clampCoords width height b
      = (max 0 ⌊b.x1⌋, max 0 ⌊b.y1⌋,
          min (width : ℤ) ⌊b.x2⌋, min (height : ℤ) ⌊b.y2⌋) := by
  unfold clampCoords
  rw [max_zero_pyInt, max_zero_pyInt, pyInt_of_nonneg hx2, pyInt_of_nonneg hy2]

/-- Concrete application of the amended C2 at a box with negative lower
coordinates and fractional upper ones. -/
theorem clampCoords_eq_floor_formula_app :
    clampCoords 100 100 ⟨-3/2, -1, 61/2, 25⟩
      = (max 0 ⌊(-3/2 : ℚ)⌋, max 0 ⌊(-1 : ℚ)⌋,
          min (100 : ℤ) ⌊(61/2 : ℚ)⌋, min (100 : ℤ) ⌊(25 : ℚ)⌋) :=
  clampCoords_eq_floor_formula 100 100 ⟨-3/2, -1, 61/2, 25⟩
    (by norm_num) (by norm_num)

/-- C8: two runs of `process_image` that differ only in the
confidence_threshold argument produce identical detections sequences; the
threshold reaches only the progress printing and the recorded ocr_config,
never the computed OCR data. -/
theorem confidence_threshold_noninterference
    (recognizer : ℤ × ℤ × ℤ × ℤ → OcrOutcome) (image_path : String)
    (width height : ℕ) (bubble_data : BubbleData) (lang : String)
    (t1 t2 : ℚ) (src now : String) :
    (process_image recognizer image_path width height bubble_data lang t1
        src now).map (fun o => o.detections)
      = (process_image recognizer image_path width height bubble_data lang t2
        src now).map (fun o => o.detections) := by
  unfold process_image
  cases processRegions recognizer width height
    (filter_text_regions bubble_data) <;> rfl

/-- C3: the crop is rejected (crop_region yields none) if and only if the
clamped coordinates are degenerate or under the 20 px minimum, and on every
rejection the loop body synthesizes the Invalid-crop record with empty
text_lines and zero confidence, without invoking the recognizer (the
outcome for the detection is the same for any two recognizers). -/
theorem crop_rejection_characterized (width height : ℕ) (b : Bbox)
    (det : DetRecord) (recognizer recognizer2 : ℤ × ℤ × ℤ × ℤ → OcrOutcome)
    (x1c y1c x2c y2c : ℤ) (hb : det.bbox = some b)
    (hc : clampCoords width height b = (x1c, y1c, x2c, y2c)) :
    (crop_region width height b = none ↔
      (x2c ≤ x1c ∨ y2c ≤ y1c ∨ x2c - x1c < 20 ∨ y2c - y1c < 20))
    ∧ (crop_region width height b = none →
        detection_ocr_result recognizer width height b
          = ⟨[], "", 0, some "Invalid crop region"⟩
        ∧ processDetection recognizer width height det
          = processDetection recognizer2 width height det) := by
  constructor
  · unfold crop_region
    rw [hc]
    show (if x2c ≤ x1c ∨ y2c ≤ y1c then none
      else if x2c - x1c < 20 ∨ y2c - y1c < 20 then none
      else some (x1c, y1c, x2c, y2c)) = none ↔ _
    split_ifs with h1 h2
    · simp only [eq_self_iff_true, true_iff]
      tauto
    · simp only [eq_self_iff_true, true_iff]
      tauto
    · push_neg at h1 h2
      simp only [reduceCtorEq, false_iff]
      push_neg
      exact ⟨h1.1, h1.2, h2.1, h2.2⟩
  · intro hnone
    have hres : detection_ocr_result recognizer width height b
        = ⟨[], "", 0, some "Invalid crop region"⟩ := by
      unfold detection_ocr_result
      rw [hnone]
    refine ⟨hres, ?_⟩
    have hres2 : detection_ocr_result recognizer2 width height b
        = ⟨[], "", 0, some "Invalid crop region"⟩ := by
      unfold detection_ocr_result
      rw [hnone]
    rcases det with ⟨lab, lid, conf, bb⟩
    simp only at hb
    subst hb
    cases lab <;> cases lid <;> cases conf <;>
      simp [processDetection, hres, hres2]

/-- Concrete application of C3: a 5 by 5 box is rejected by the minimum
size rule and the loop body produces the Invalid-crop record for it, with
identical behaviour under a raising recognizer and an empty-returning
one. -/
theorem crop_rejection_characterized_app :
    (crop_region 100 100 ⟨0, 0, 5, 5⟩ = none ↔
      ((5 : ℤ) ≤ 0 ∨ (5 : ℤ) ≤ 0 ∨ (5 : ℤ) - 0 < 20 ∨ (5 : ℤ) - 0 < 20))
    ∧ (crop_region 100 100 ⟨0, 0, 5, 5⟩ = none →
        detection_ocr_result (fun _ => .raises "x") 100 100 ⟨0, 0, 5, 5⟩
          = ⟨[], "", 0, some "Invalid crop region"⟩
        ∧ processDetection (fun _ => .raises "x") 100 100
            ⟨some "text_bubble", some 1, some 1, some ⟨0, 0, 5, 5⟩⟩
          = processDetection (fun _ => .returns []) 100 100
            ⟨some "text_bubble", some 1, some 1, some ⟨0, 0, 5, 5⟩⟩) :=
  crop_rejection_characterized 100 100 ⟨0, 0, 5, 5⟩
    ⟨some "text_bubble", some 1, some 1, some ⟨0, 0, 5, 5⟩⟩
    (fun _ => .raises "x") (fun _ => .returns []) 0 0 5 5 rfl rfl

/-- C4: the detections sent to OCR are exactly those with label_id 1 or 2,
in original order: the output entries enumerate the filtered detections in
order, membership in the filtered list is label membership, and the run
outcome is unchanged when the recognizer is replaced by one that agrees on
the crops of the filtered detections (so no other detection is ever passed
to the recognizer). -/
theorem ocr_selection_is_label_filter
    (recognizer recognizer2 : ℤ × ℤ × ℤ × ℤ → OcrOutcome)
    (image_path : String) (width height : ℕ) (bubble_data : BubbleData)
    (lang : String) (threshold : ℚ) (src now : String) (d : DetRecord)
    (o : PipelineOutput)
    (hagree : ∀ det ∈ filter_text_regions bubble_data, ∀ b,
      det.bbox = some b → ∀ r, crop_region width height b = some r →
        recognizer r = recognizer2 r)
    (h : process_image recognizer image_path width height bubble_data lang
      threshold src now = .ok o) :
    o.detections.map (fun a => some a.label_id)
      = (filter_text_regions bubble_data).map (fun det => det.label_id)
    ∧ (d ∈ filter_text_regions bubble_data ↔
        d ∈ bubble_data.detections.getD []
          ∧ (d.label_id = some 1 ∨ d.label_id = some 2))
    ∧ process_image recognizer image_path width height bubble_data lang
        threshold src now
      = process_image recognizer2 image_path width height bubble_data lang
        threshold src now := by
  refine ⟨?_, ?_, ?_⟩
  · have hrel := processRegions_ok_forall₂ _ _ (process_image_ok_elim h)
    refine forall₂_map_eq hrel (fun x a hr => ?_)
    obtain ⟨_, h2, _, _, _⟩ := hr
    rw [h2]
  · simp [filter_text_regions, List.mem_filter]
  · unfold process_image
    rw [processRegions_congr recognizer recognizer2 width height _ hagree]

/-- Concrete application of C4: a document whose only detection is a
bubble (label_id 0) produces no OCR entries, and the run is observably
identical under a raising recognizer, which is therefore never invoked. -/
theorem ocr_selection_is_label_filter_app :
    (⟨some [⟨some "bubble", some 0, some 1, some ⟨0, 0, 200, 200⟩⟩]⟩
        : BubbleData).detections.getD [] ≠ []
    ∧ (process_image (fun _ => .returns [⟨true, ["hi"], [1]⟩]) "page.png"
        100 100 ⟨some [⟨some "bubble", some 0, some 1, some ⟨0, 0, 200, 200⟩⟩]⟩
        "chinese_cht" 1 "b.json" "t").map (fun o => o.detections)
      = .ok []
    ∧ process_image (fun _ => .returns [⟨true, ["hi"], [1]⟩]) "page.png"
        100 100 ⟨some [⟨some "bubble", some 0, some 1, some ⟨0, 0, 200, 200⟩⟩]⟩
        "chinese_cht" 1 "b.json" "t"
      = process_image (fun _ => .raises "never") "page.png"
        100 100 ⟨some [⟨some "bubble", some 0, some 1, some ⟨0, 0, 200, 200⟩⟩]⟩
        "chinese_cht" 1 "b.json" "t" := by
  refine ⟨by decide, by rfl, ?_⟩
  exact (ocr_selection_is_label_filter (fun _ => .returns [⟨true, ["hi"], [1]⟩])
    (fun _ => .raises "never") "page.png" 100 100
    ⟨some [⟨some "bubble", some 0, some 1, some ⟨0, 0, 200, 200⟩⟩]⟩
    "chinese_cht" 1 "b.json" "t"
    ⟨some "bubble", some 0, some 1, some ⟨0, 0, 200, 200⟩⟩
    ⟨⟨"page.png", 100, 100⟩, [], ⟨"chinese_cht", "paddleocr", "3.3.2", 1⟩,
      "b.json", "t"⟩
    (by
      intro det hdet b hbb r hcr
      rw [show filter_text_regions
          ⟨some [⟨some "bubble", some 0, some 1, some ⟨0, 0, 200, 200⟩⟩]⟩
          = ([] : List DetRecord) from rfl] at hdet
      cases hdet) rfl).2.2

/-- C5: every RegionOcrResult carried by an output entry of the pipeline
satisfies the invariant: an error implies empty text_lines and zero
avg_confidence, and no entry has error absent, empty text_lines and a
nonzero avg_confidence. -/
theorem region_result_error_invariant
    (recognizer : ℤ × ℤ × ℤ × ℤ → OcrOutcome) (image_path : String)
    (width height : ℕ) (bubble_data : BubbleData) (lang : String)
    (threshold : ℚ) (src now : String) (o : PipelineOutput)
    (a : AnnotatedDetection)
    (h : process_image recognizer image_path width height bubble_data lang
      threshold src now = .ok o)
    (ha : a ∈ o.detections) :
    (a.ocr_result.error ≠ none →
      a.ocr_result.text_lines = [] ∧ a.ocr_result.avg_confidence = 0)
    ∧ ¬(a.ocr_result.error = none ∧ a.ocr_result.text_lines = []
        ∧ a.ocr_result.avg_confidence ≠ 0) := by
  have hrel := processRegions_ok_forall₂ _ _ (process_image_ok_elim h)
  obtain ⟨d, _, hr⟩ := forall₂_mem_right hrel ha
  obtain ⟨_, _, _, _, ho⟩ := hr
  rw [ho]
  unfold detection_ocr_result
  cases hcr : crop_region width height a.bbox with
  | none => simp
  | some rect =>
    refine ⟨(run_ocr_invariant (recognizer rect)).1, ?_⟩
    rintro ⟨he, htl, havg⟩
    exact havg ((run_ocr_invariant (recognizer rect)).2 he htl)

/-- Concrete application of C5 at a run whose only region yields the
No-text error record. -/
theorem region_result_error_invariant_app :
    ((⟨"text_bubble", 1, 1, ⟨0, 0, 30, 30⟩,
        ⟨[], "", 0, some "No text detected"⟩⟩
        : AnnotatedDetection).ocr_result.error ≠ none →
      (⟨"text_bubble", 1, 1, ⟨0, 0, 30, 30⟩,
        ⟨[], "", 0, some "No text detected"⟩⟩
        : AnnotatedDetection).ocr_result.text_lines = []
      ∧ (⟨"text_bubble", 1, 1, ⟨0, 0, 30, 30⟩,
        ⟨[], "", 0, some "No text detected"⟩⟩
        : AnnotatedDetection).ocr_result.avg_confidence = 0)
    ∧ ¬((⟨"text_bubble", 1, 1, ⟨0, 0, 30, 30⟩,
        ⟨[], "", 0, some "No text detected"⟩⟩
        : AnnotatedDetection).ocr_result.error = none
      ∧ (⟨"text_bubble", 1, 1, ⟨0, 0, 30, 30⟩,
        ⟨[], "", 0, some "No text detected"⟩⟩
        : AnnotatedDetection).ocr_result.text_lines = []
      ∧ (⟨"text_bubble", 1, 1, ⟨0, 0, 30, 30⟩,
        ⟨[], "", 0, some "No text detected"⟩⟩
        : AnnotatedDetection).ocr_result.avg_confidence ≠ 0) :=
  region_result_error_invariant (fun _ => .returns []) "page.png" 100 100
    ⟨some [⟨some "text_bubble", some 1, some 1, some ⟨0, 0, 30, 30⟩⟩]⟩
    "chinese_cht" 1 "b.json" "t"
    ⟨⟨"page.png", 100, 100⟩,
      [⟨"text_bubble", 1, 1, ⟨0, 0, 30, 30⟩,
        ⟨[], "", 0, some "No text detected"⟩⟩],
      ⟨"chinese_cht", "paddleocr", "3.3.2", 1⟩, "b.json", "t"⟩
    ⟨"text_bubble", 1, 1, ⟨0, 0, 30, 30⟩,
      ⟨[], "", 0, some "No text detected"⟩⟩
    (by rfl) (by simp)

/-- C6 counterexample: when `ocr.predict` returns a truthy first element
whose rec_texts and rec_scores are empty (a well-formed but empty result,
e.g. the dict with rec_texts = [] that PaddleOCR yields on a blank crop),
`run_ocr_on_crop` returns error absent with empty text_lines: the
no-text-detected sentinel is NOT set, refuting the claim that such a
result is never returned. -/
theorem empty_page_result_lacks_error_sentinel :
    (run_ocr_on_crop (.returns [⟨true, [], []⟩])).error = none
    ∧ (run_ocr_on_crop (.returns [⟨true, [], []⟩])).text_lines = [] :=
  ⟨rfl, rfl⟩

/-- C6 amended: the "No text detected" sentinel is set exactly when the raw
recognizer output is empty or its first element is falsy (the guard
`not result or not result[0]`); when the first element is truthy but the
zipped texts and scores are empty, the result has error absent, empty
text_lines and avg_confidence 0.0. -/
theorem no_text_sentinel_characterized (page : OcrPage) (rest : List OcrPage) :
    (run_ocr_on_crop (.returns [])).error = some "No text detected"
    ∧ (page.nonempty = false →
        (run_ocr_on_crop (.returns (page :: rest))).error
          = some "No text detected")
    ∧ (page.nonempty = true → page.rec_texts.zip page.rec_scores = [] →
        run_ocr_on_crop (.returns (page :: rest)) = ⟨[], "", 0, none⟩) := by
  refine ⟨rfl, ?_, ?_⟩
  · intro h
    simp [run_ocr_on_crop, h]
  · intro h hz
    simp [run_ocr_on_crop, h, hz, round4_zero]
    rfl

/-- Concrete applications of the amended C6 covering all three branches. -/
theorem no_text_sentinel_characterized_app :
    (run_ocr_on_crop (.returns [])).error = some "No text detected"
    ∧ (run_ocr_on_crop (.returns [⟨false, [], []⟩])).error
      = some "No text detected"
    ∧ run_ocr_on_crop (.returns [⟨true, [], []⟩]) = ⟨[], "", 0, none⟩ :=
  ⟨(no_text_sentinel_characterized ⟨false, [], []⟩ []).1,
    (no_text_sentinel_characterized ⟨false, [], []⟩ []).2.1 rfl,
    (no_text_sentinel_characterized ⟨true, [], []⟩ []).2.2 rfl rfl⟩

/-- C7: on a successful recognition with a nonempty zipped line list, the
stored text_lines carry the per-line scores rounded to 4 decimals and
avg_confidence is the arithmetic mean of the raw per-line scores, rounded
to 4 decimals; whenever zero lines are produced the avg_confidence is
0.0. -/
theorem avg_confidence_is_rounded_mean (page : OcrPage)
    (rest : List OcrPage) (outcome : OcrOutcome)
    (hpage : page.nonempty = true)
    (hlines : page.rec_texts.zip page.rec_scores ≠ []) :
    (run_ocr_on_crop (.returns (page :: rest))).text_lines
      = (page.rec_texts.zip page.rec_scores).map
          (fun ts => OcrLine.mk ts.1 (round4 ts.2))
    ∧ (run_ocr_on_crop (.returns (page :: rest))).avg_confidence
      = round4 (((page.rec_texts.zip page.rec_scores).map
            (fun ts => ts.2)).sum
          / ((page.rec_texts.zip page.rec_scores).length : ℚ))
    ∧ ((run_ocr_on_crop outcome).text_lines = [] →
        (run_ocr_on_crop outcome).avg_confidence = 0) := by
  refine ⟨?_, ?_, fun h1 => ?_⟩
  · simp [run_ocr_on_crop, hpage]
  · have hml : (page.rec_texts.zip page.rec_scores).map
        (fun ts => OcrLine.mk ts.1 (round4 ts.2)) ≠ [] := by
      simpa using hlines
    simp [run_ocr_on_crop, hpage, hml]
  · rcases run_ocr_invariant outcome with ⟨hinv1, hinv2⟩
    by_cases he : (run_ocr_on_crop outcome).error = none
    · exact hinv2 he h1
    · exact (hinv1 he).2

/-- Concrete application of C7: line scores 0.9, 0.7 and 0.5 average to
exactly 0.7, matching the specification example. -/
theorem avg_confidence_is_rounded_mean_app :
    (run_ocr_on_crop
        (.returns [⟨true, ["a", "b", "c"], [9/10, 7/10, 1/2]⟩])).avg_confidence
      = 7/10 := by
  have h := (avg_confidence_is_rounded_mean
    ⟨true, ["a", "b", "c"], [9/10, 7/10, 1/2]⟩ [] (.returns [])
    rfl (by decide)).2.1
  rw [h]
  have hzip : (["a", "b", "c"].zip [(9 : ℚ)/10, 7/10, 1/2])
      = [("a", (9 : ℚ)/10), ("b", 7/10), ("c", 1/2)] := rfl
  rw [hzip]
  have hsum : ([("a", (9 : ℚ)/10), ("b", 7/10), ("c", 1/2)].map
      (fun ts => ts.2)).sum = 21/10 := by
    norm_num
  have hlen : (([("a", (9 : ℚ)/10), ("b", 7/10), ("c", 1/2)].length : ℕ) : ℚ)
      = 3 := by norm_num
  rw [hsum, hlen]
  have hdiv : (21 : ℚ)/10/3 = 7/10 := by norm_num
  rw [hdiv, round4_of_exact (7/10) 7000 (by norm_num)]
  norm_num

/-- C9 counterexample: a malformed detection document lacking a detections
list does not abort the run; `process_image` completes and produces an
output document with an empty detections sequence, refuting the claim that
every malformed document is fatal. -/
theorem missing_detections_key_completes :
    process_image (fun _ => .returns []) "page.png" 100 100 ⟨none⟩
      "chinese_cht" (1/2) "page-bubbles.json" "2026-01-01T00:00:00Z"
      = .ok ⟨⟨"page.png", 100, 100⟩, [],
          ⟨"chinese_cht", "paddleocr", "3.3.2", 1/2⟩,
          "page-bubbles.json", "2026-01-01T00:00:00Z"⟩ := rfl

/-- C9 amended: the run aborts with the error surfaced to the caller
exactly for the malformations the loop body touches: whenever some
text-label-filtered record is missing its bbox, label or confidence key,
`process_image` returns an error.  A document without a detections list,
or whose ill-formed records do not carry label_id 1 or 2, completes
normally instead. -/
theorem bad_filtered_record_aborts
    (recognizer : ℤ × ℤ × ℤ × ℤ → OcrOutcome) (image_path : String)
    (width height : ℕ) (bubble_data : BubbleData) (lang : String)
    (threshold : ℚ) (src now : String)
    (hbad : ∃ d ∈ filter_text_regions bubble_data,
      d.bbox = none ∨ d.label = none ∨ d.confidence = none) :
    (process_image recognizer image_path width height bubble_data lang
      threshold src now).toOption = none := by
  unfold process_image
  cases hr : processRegions recognizer width height
      (filter_text_regions bubble_data) with
  | error e => rfl
  | ok out =>
    exact absurd hr (processRegions_not_ok_of_bad recognizer width height _
      hbad out)

/-- Concrete application of the amended C9: a text_free record with no
bbox key aborts the run. -/
theorem bad_filtered_record_aborts_app :
    (process_image (fun _ => .returns []) "page.png" 100 100
      ⟨some [⟨some "text_free", some 2, some 1, none⟩]⟩
      "chinese_cht" 1 "b.json" "t").toOption = none :=
  bad_filtered_record_aborts (fun _ => .returns []) "page.png" 100 100
    ⟨some [⟨some "text_free", some 2, some 1, none⟩]⟩ "chinese_cht" 1
    "b.json" "t"
    ⟨⟨some "text_free", some 2, some 1, none⟩,
      List.mem_singleton.mpr rfl, Or.inl rfl⟩

/-- C10: each output entry copies label, label_id, confidence and bbox
verbatim from its input detection record; in particular bbox is the raw
float box, and the clamped integer crop rectangle is never written back
into the output. -/
theorem output_preserves_raw_detection_fields
    (recognizer : ℤ × ℤ × ℤ × ℤ → OcrOutcome) (image_path : String)
    (width height : ℕ) (bubble_data : BubbleData) (lang : String)
    (threshold : ℚ) (src now : String) (o : PipelineOutput)
    (h : process_image recognizer image_path width height bubble_data lang
      threshold src now = .ok o) :
    o.detections.map
        (fun a => (some a.label, some a.label_id, some a.confidence,
          some a.bbox))
      = (filter_text_regions bubble_data).map
          (fun d => (d.label, d.label_id, d.confidence, d.bbox)) := by
  have hrel := processRegions_ok_forall₂ _ _ (process_image_ok_elim h)
  refine forall₂_map_eq hrel (fun d a hr => ?_)
  obtain ⟨h1, h2, h3, h4, _⟩ := hr
  rw [h1, h2, h3, h4]

/-- Concrete application of C10: an out-of-bounds raw box (-5, -5, 30, 30)
appears verbatim in the output entry even though the crop used the clamped
rectangle (0, 0, 30, 30). -/
theorem output_preserves_raw_detection_fields_app :
    ([⟨"text_bubble", 1, 1, ⟨-5, -5, 30, 30⟩,
        ⟨[], "", 0, some "No text detected"⟩⟩]
          : List AnnotatedDetection).map
        (fun a => (some a.label, some a.label_id, some a.confidence,
          some a.bbox))
      = (filter_text_regions
          ⟨some [⟨some "text_bubble", some 1, some 1,
            some ⟨-5, -5, 30, 30⟩⟩]⟩).map
          (fun d => (d.label, d.label_id, d.confidence, d.bbox)) :=
  output_preserves_raw_detection_fields (fun _ => .returns []) "page.png"
    100 100 ⟨some [⟨some "text_bubble", some 1, some 1, some ⟨-5, -5, 30, 30⟩⟩]⟩
    "chinese_cht" 1 "b.json" "t"
    ⟨⟨"page.png", 100, 100⟩,
      [⟨"text_bubble", 1, 1, ⟨-5, -5, 30, 30⟩,
        ⟨[], "", 0, some "No text detected"⟩⟩],
      ⟨"chinese_cht", "paddleocr", "3.3.2", 1⟩, "b.json", "t"⟩
    (by rfl)

end ComicReader
